import Mathlib

/-!
Verification of the tesis-data-analysis pipeline.

This file embeds the core components of the repository in Lean 4:
the drift classifier (`classify_issue` in `drift_quality_analysis.py`),
the paired comparators (`human_effort_analysis.py`,
`drift_quality_analysis.py`, `kubescape_analysis.py`), the record
extractor (`flatten_results` in `utils.py`), the drift aggregator's
per-application normalization, the rank-biserial effect-size helper
(`rank_biserial_from_wilcoxon` in `utils.py` / `kubescape_analysis.py`),
and the agreement evaluator's per-stage metric wrapper
(`analyze_llm_human_alignment` in `llm_alignment_analysis.py`).
Python strings become `String`, Python numbers become `Int`/`Rat`,
fallible code returns `Except String`, and absent optional fields
become `Option`.
-/

/-! ### Substring search (Python's `needle in haystack` on strings) -/

/-- Does the character list contain `needle` as a contiguous sublist?
Mirrors Python's `in` operator on strings. -/
def listContainsSub (needle : List Char) : List Char → Bool
  | [] => needle.isEmpty
  | c :: rest => needle.isPrefixOf (c :: rest) || listContainsSub needle rest

/-- `strContains hay needle` mirrors Python's `needle in hay` for strings. -/
def strContains (hay needle : String) : Bool :=
  listContainsSub needle.data hay.data

/-- ASCII lowercasing of a character, as Python's `str.lower` acts on the
ASCII data these records carry. -/
def lowerChar (c : Char) : Char :=
  if 'A' ≤ c ∧ c ≤ 'Z' then Char.ofNat (c.toNat + 32) else c

/-- ASCII lowercasing of a string (Python's `str.lower` on this data). -/
def lowerStr (s : String) : String :=
  ⟨s.data.map lowerChar⟩

/-! ### Drift classifier (`drift_quality_analysis.py`, `classify_issue`) -/

/-- One discrepancy/issue record consumed by `classify_issue`.  Each field
models an optional key of the Python dict; `none` means the key is absent.
Well-formed records carry strings in the present fields. -/
structure Issue where
  reviewed_level : Option String
  severity_level : Option String
  comments : Option String
  severity_description : Option String
  issue_type : Option String
  path : Option String
  deriving DecidableEq

/-- Python line 30: `issue.get("reviewed_level") or issue.get("severity_level", "UNKNOWN")`.
A present but empty `reviewed_level` is falsy in Python, so it falls through
to `severity_level`, which defaults to `"UNKNOWN"` when absent. -/
def effectiveSeverity (issue : Issue) : String :=
  match issue.reviewed_level with
  | some r => if r = "" then issue.severity_level.getD "UNKNOWN" else r
  | none => issue.severity_level.getD "UNKNOWN"

/-- `classify_issue` from `drift_quality_analysis.py` lines 19-63: the ordered
rule cascade mapping an issue to "Error", "Enhancement" or "Noise".
Absent text fields default to `""` (Python `issue.get(key, "")`), and all
text fields are lowercased before the substring tests. -/
def classify_issue (issue : Issue) : String :=
  let severity := effectiveSeverity issue
  let comment := lowerStr (issue.comments.getD "")
  let desc := lowerStr (issue.severity_description.getD "")
  let issue_type := lowerStr (issue.issue_type.getD "")
  let path := lowerStr (issue.path.getD "")
  if strContains comment "enhancement" || strContains comment "production ready" then
    "Enhancement"
  else if strContains desc "security" && strContains issue_type "extra" then
    "Enhancement"
  else if (strContains path "readinessprobe" || strContains path "livenessprobe")
      && strContains issue_type "extra" then
    "Enhancement"
  else if severity = "CRITICAL" ∨ severity = "HIGH" then
    if strContains comment "correctly mapped" then "Noise"
    else if strContains comment "local image" then "Noise"
    else if strContains comment "different name" then "Noise"
    else "Error"
  else "Noise"

example :
    classify_issue ⟨some "INFO", some "CRITICAL", none, none, none, none⟩ = "Noise" := by
  decide

example :
    classify_issue ⟨none, some "HIGH", none, none, some "extra",
      some "spec/livenessProbe"⟩ = "Enhancement" := by
  decide

example :
    classify_issue ⟨none, some "CRITICAL", some "local image used instead",
      none, none, none⟩ = "Noise" := by
  decide

/-- C2: an issue automatically rated CRITICAL but reviewed as INFO, with no
enhancement keyword in its text fields, classifies as Noise: the reviewed
level replaces the automatic severity in the Error test. -/
theorem reviewed_info_overrides_critical (i : Issue)
    (hrev : i.reviewed_level = some "INFO")
    (hsev : i.severity_level = some "CRITICAL")
    (hc1 : strContains (lowerStr (i.comments.getD "")) "enhancement" = false)
    (hc2 : strContains (lowerStr (i.comments.getD "")) "production ready" = false)
    (hd : (strContains (lowerStr (i.severity_description.getD "")) "security"
        && strContains (lowerStr (i.issue_type.getD "")) "extra") = false)
    (hp : ((strContains (lowerStr (i.path.getD "")) "readinessprobe"
        || strContains (lowerStr (i.path.getD "")) "livenessprobe")
        && strContains (lowerStr (i.issue_type.getD "")) "extra") = false) :
    classify_issue i = "Noise" := by
  have hsevEff : effectiveSeverity i = "INFO" := by
    simp [effectiveSeverity, hrev]
  simp [classify_issue, hc1, hc2, hd, hp, hsevEff]

theorem reviewed_info_overrides_critical_witness :
    classify_issue ⟨some "INFO", some "CRITICAL", none, none, none, none⟩ = "Noise" :=
  reviewed_info_overrides_critical ⟨some "INFO", some "CRITICAL", none, none, none, none⟩
    rfl rfl rfl rfl rfl rfl

/-- C3: an issue with effective severity HIGH whose issue-type contains
"extra" and whose path contains "livenessprobe" or "readinessprobe"
classifies as Enhancement, not Error: the probe-addition enhancement rule
is tested before the Error test. -/
theorem probe_extra_enhancement_precedence (i : Issue)
    (hsev : effectiveSeverity i = "HIGH")
    (hpath : strContains (lowerStr (i.path.getD "")) "livenessprobe" = true
        ∨ strContains (lowerStr (i.path.getD "")) "readinessprobe" = true)
    (htype : strContains (lowerStr (i.issue_type.getD "")) "extra" = true) :
    classify_issue i = "Enhancement" := by
  rcases hpath with hpath | hpath <;>
    simp [classify_issue, hpath, htype]

theorem probe_extra_enhancement_precedence_witness :
    effectiveSeverity ⟨none, some "HIGH", none, none, some "extra",
        some "spec/livenessProbe"⟩ = "HIGH" ∧
    classify_issue ⟨none, some "HIGH", none, none, some "extra",
        some "spec/livenessProbe"⟩ = "Enhancement" :=
  ⟨by decide,
    probe_extra_enhancement_precedence
      ⟨none, some "HIGH", none, none, some "extra", some "spec/livenessProbe"⟩
      (by decide) (Or.inl (by decide)) (by decide)⟩

/-- C4: an issue with effective severity CRITICAL or HIGH whose commentary
contains one of the benign-pattern substrings, and which matches no
enhancement rule, classifies as Noise instead of Error. -/
theorem benign_pattern_suppresses_error (i : Issue)
    (hsev : effectiveSeverity i = "CRITICAL" ∨ effectiveSeverity i = "HIGH")
    (hben : strContains (lowerStr (i.comments.getD "")) "correctly mapped" = true
        ∨ strContains (lowerStr (i.comments.getD "")) "local image" = true
        ∨ strContains (lowerStr (i.comments.getD "")) "different name" = true)
    (hc1 : strContains (lowerStr (i.comments.getD "")) "enhancement" = false)
    (hc2 : strContains (lowerStr (i.comments.getD "")) "production ready" = false)
    (hd : (strContains (lowerStr (i.severity_description.getD "")) "security"
        && strContains (lowerStr (i.issue_type.getD "")) "extra") = false)
    (hp : ((strContains (lowerStr (i.path.getD "")) "readinessprobe"
        || strContains (lowerStr (i.path.getD "")) "livenessprobe")
        && strContains (lowerStr (i.issue_type.getD "")) "extra") = false) :
    classify_issue i = "Noise" := by
  rcases hben with hben | hben | hben <;>
    simp [classify_issue, hc1, hc2, hd, hp, hben]

theorem benign_pattern_suppresses_error_witness :
    (effectiveSeverity ⟨none, some "CRITICAL", some "local image used instead",
        none, none, none⟩ = "CRITICAL" ∨
      effectiveSeverity ⟨none, some "CRITICAL", some "local image used instead",
        none, none, none⟩ = "HIGH") ∧
    classify_issue ⟨none, some "CRITICAL", some "local image used instead",
        none, none, none⟩ = "Noise" :=
  ⟨Or.inl (by decide),
    benign_pattern_suppresses_error
      ⟨none, some "CRITICAL", some "local image used instead", none, none, none⟩
      (Or.inl (by decide)) (Or.inr (Or.inl (by decide)))
      (by decide) (by decide) (by decide) (by decide)⟩

/-- C7: `classify_issue` is a deterministic total function: it always returns
exactly one of "Error", "Enhancement", "Noise"; and an issue with no
reviewed level and no severity level (effective severity "UNKNOWN") is
never classified as Error. Determinism is inherent: it is a pure function
of the record. -/
theorem classify_issue_total_deterministic (i : Issue) :
    (classify_issue i = "Error" ∨ classify_issue i = "Enhancement"
      ∨ classify_issue i = "Noise")
    ∧ (i.reviewed_level = none → i.severity_level = none →
        classify_issue i ≠ "Error") := by
  constructor
  · simp only [classify_issue]
    split_ifs <;> simp
  · intro hrev hsev
    have hu : effectiveSeverity i = "UNKNOWN" := by
      simp [effectiveSeverity, hrev, hsev]
    simp only [classify_issue, hu]
    split_ifs <;> simp_all

theorem classify_issue_total_deterministic_witness :
    (classify_issue ⟨none, none, none, none, none, none⟩ = "Error"
      ∨ classify_issue ⟨none, none, none, none, none, none⟩ = "Enhancement"
      ∨ classify_issue ⟨none, none, none, none, none, none⟩ = "Noise")
    ∧ classify_issue ⟨none, none, none, none, none, none⟩ ≠ "Error" :=
  ⟨(classify_issue_total_deterministic ⟨none, none, none, none, none, none⟩).1,
    (classify_issue_total_deterministic ⟨none, none, none, none, none, none⟩).2 rfl rfl⟩

/-! ### Rank-biserial effect size (`utils.py` / `kubescape_analysis.py`,
`rank_biserial_from_wilcoxon`): sign counts of the paired deltas. -/

/-- `rank_biserial_from_wilcoxon` from `utils.py` lines 28-38 (duplicated in
`kubescape_analysis.py` lines 16-26): `pos` and `neg` count the strictly
positive and strictly negative deltas, and the result is
`(pos - neg) / (pos + neg)`, with `0.0` returned when every delta is zero. -/
def rank_biserial_from_wilcoxon (deltas : List Rat) : Rat :=
  let pos := deltas.countP (fun d => decide (0 < d))
  let neg := deltas.countP (fun d => decide (d < 0))
  let n_pairs := pos + neg
  if n_pairs = 0 then 0 else ((pos : Rat) - (neg : Rat)) / (n_pairs : Rat)

/-- pandas `Series.median`: sort, take the middle element (odd length) or the
mean of the two middle elements (even length); `none` models the NaN median
of an empty series. -/
def median (xs : List Rat) : Option Rat :=
  let s := List.insertionSort (· ≤ ·) xs
  let n := s.length
  if n = 0 then none
  else if n % 2 = 1 then some (s.getD (n / 2) 0)
  else some ((s.getD (n / 2 - 1) 0 + s.getD (n / 2) 0) / 2)

/-! ### Human-effort paired comparator (`human_effort_analysis.py`,
`analyze_human_effort` lines 35-52).  A flattened application record is
keyed by (stage, app); `total_operations` is the paired measurement.
The pandas `pivot(index="app", columns="stage").dropna()` step keeps
exactly the applications holding a record in both stages (the invariant
makes (stage, app) unique, which `pivot` requires). -/

/-- One flattened per-application record as used by the paired comparator;
`total_operations` is an integer edit-operation count. -/
structure EffortRec where
  stage : String
  app : String
  total_operations : Int
  deriving DecidableEq

/-- Applications holding a record in stage `s`, in record order. -/
def effortApps (df : List EffortRec) (s : String) : List String :=
  (df.filter (fun r => r.stage == s)).map (fun r => r.app)

/-- The `total_operations` value of app `a` in stage `s`, if recorded. -/
def effortLookup (df : List EffortRec) (s a : String) : Option Int :=
  (df.find? (fun r => r.stage == s && r.app == a)).map (fun r => r.total_operations)

/-- The applications surviving `pivot(...).dropna()`: those with a record in
both the base and the corrected stage. -/
def pairedApps (df : List EffortRec) (base corr : String) : List String :=
  (effortApps df base).filter (fun a => (effortLookup df corr a).isSome)

/-- Line 43: `paired["delta"] = paired[corr_stage] - paired[base_stage]`,
one integer difference per matched application, embedded into ℚ for the
downstream statistics. -/
def pairedDeltas (df : List EffortRec) (base corr : String) : List Rat :=
  (pairedApps df base corr).map
    (fun a => (((effortLookup df corr a).getD 0 - (effortLookup df base a).getD 0 : Int) : Rat))

/-- Lines 39-45: `none` models the `"Insufficient paired data"` branch taken
when fewer than 3 matched pairs remain (`paired.empty or len(paired) < 3`);
otherwise the comparator reports the pair count and the median delta. -/
def humanEffortOutcome (df : List EffortRec) (base corr : String) :
    Option (Nat × Option Rat) :=
  let ps := pairedApps df base corr
  if ps.length < 3 then none
  else some (ps.length, median (pairedDeltas df base corr))

/-- C10: the sign-count rank-biserial helper returns exactly 0 when every
paired delta is zero, instead of dividing by zero. -/
theorem rank_biserial_all_ties_zero (deltas : List Rat)
    (h : ∀ d ∈ deltas, d = 0) :
    rank_biserial_from_wilcoxon deltas = 0 := by
  have hpos : deltas.countP (fun d => decide (0 < d)) = 0 := by
    refine List.countP_eq_zero.mpr ?_
    intro d hd
    simp [h d hd]
  have hneg : deltas.countP (fun d => decide (d < 0)) = 0 := by
    refine List.countP_eq_zero.mpr ?_
    intro d hd
    simp [h d hd]
  simp [rank_biserial_from_wilcoxon, hpos, hneg]

theorem rank_biserial_all_ties_zero_witness :
    (∀ d ∈ ([0, 0, 0] : List Rat), d = 0) ∧
      rank_biserial_from_wilcoxon [0, 0, 0] = 0 :=
  ⟨by decide, rank_biserial_all_ties_zero [0, 0, 0] (by decide)⟩

/-- Three matched applications with total-operation counts 10, 20, 30 before
and 5, 15, 25 after correction. -/
def effortExample : List EffortRec :=
  [⟨"with_ir", "app1", 10⟩, ⟨"with_ir", "app2", 20⟩, ⟨"with_ir", "app3", 30⟩,
   ⟨"with_ir_corrected", "app1", 5⟩, ⟨"with_ir_corrected", "app2", 15⟩,
   ⟨"with_ir_corrected", "app3", 25⟩]

/-- C5 counterexample: on paired counts before=[10,20,30] and after=[5,15,25]
every delta is -5, and the sign-count rank-biserial effect size is not 1.0 as
the claim states (it is negative: the signed convention encodes direction). -/
theorem all_decrease_claimed_effect_refuted :
    pairedDeltas effortExample "with_ir" "with_ir_corrected" = [-5, -5, -5] ∧
    rank_biserial_from_wilcoxon
      (pairedDeltas effortExample "with_ir" "with_ir_corrected") ≠ 1 := by
  have hd : pairedDeltas effortExample "with_ir" "with_ir_corrected" = [-5, -5, -5] := by
    decide
  have hpos : List.countP (fun d => decide ((0 : Rat) < d)) [-5, -5, -5] = 0 := by decide
  have hneg : List.countP (fun d => decide (d < (0 : Rat))) [-5, -5, -5] = 3 := by decide
  refine ⟨hd, ?_⟩
  rw [hd]
  simp only [rank_biserial_from_wilcoxon, hpos, hneg]
  norm_num

/-- C5 amended: the paired comparator reports n=3 matched pairs with a median
delta of -5, and the sign-count rank-biserial effect size equals -1.0:
entirely one-directional in magnitude, its sign encoding the decrease. -/
theorem all_decrease_effect_size_amended :
    humanEffortOutcome effortExample "with_ir" "with_ir_corrected"
        = some (3, some (-5)) ∧
    rank_biserial_from_wilcoxon
      (pairedDeltas effortExample "with_ir" "with_ir_corrected") = -1 := by
  have hd : pairedDeltas effortExample "with_ir" "with_ir_corrected" = [-5, -5, -5] := by
    decide
  have hpos : List.countP (fun d => decide ((0 : Rat) < d)) [-5, -5, -5] = 0 := by decide
  have hneg : List.countP (fun d => decide (d < (0 : Rat))) [-5, -5, -5] = 3 := by decide
  refine ⟨by decide, ?_⟩
  rw [hd]
  simp only [rank_biserial_from_wilcoxon, hpos, hneg]
  norm_num

/-! ### Drift aggregator and drift-path Wilcoxon section
(`drift_quality_analysis.py`, `analyze_drift_quality`).  After
classification, each drift record carries (stage, app, category); the
aggregator builds a stage × category count table and divides each stage's
counts by the number of distinct applications contributing a record to
that stage (lines 100-119). -/

/-- One classified drift record as produced by the flattening loop of
`analyze_drift_quality` (lines 79-91). -/
structure DriftRec where
  stage : String
  app : String
  category : String
  deriving DecidableEq

/-- The stages present in the records: the rows of the aggregated tables
(the code's `existing_stages` categorical levels, as a set). -/
def stagesOf (df : List DriftRec) : List String :=
  (df.map (fun r => r.stage)).dedup

/-- The distinct applications contributing at least one record to stage `s`
(`df.groupby("stage")["app"].nunique()`, line 109). -/
def appsOfStage (df : List DriftRec) (s : String) : List String :=
  ((df.filter (fun r => r.stage == s)).map (fun r => r.app)).dedup

/-- Number of distinct applications contributing to stage `s`. -/
def apps_per_stage (df : List DriftRec) (s : String) : Nat :=
  (appsOfStage df s).length

/-- The raw stage × category count (line 101, `groupby.size().unstack(fill_value=0)`). -/
def catCount (df : List DriftRec) (s c : String) : Nat :=
  (df.filter (fun r => r.stage == s && r.category == c)).length

/-- Line 112, `stats.div(apps_per_stage, axis=0)`: the per-application
normalized count for stage `s` and category `c`.  The table only has rows
for stages in `stagesOf df`. -/
def normalizedCount (df : List DriftRec) (s c : String) : Rat :=
  (catCount df s c : Rat) / (apps_per_stage df s : Rat)

/-- C8: every stage present in the records has at least one contributing
application, so its normalized entry is the category count genuinely
divided by the distinct-application count — never a division by zero;
stages with zero contributing applications have no row in the table
(its rows are exactly `stagesOf df`). -/
theorem drift_normalization_per_app (df : List DriftRec) (s c : String)
    (hs : s ∈ stagesOf df) :
    0 < apps_per_stage df s ∧
    normalizedCount df s c * (apps_per_stage df s : Rat) = (catCount df s c : Rat) := by
  have hpos : 0 < apps_per_stage df s := by
    rw [stagesOf, List.mem_dedup, List.mem_map] at hs
    obtain ⟨r, hrdf, hst⟩ := hs
    have happ : r.app ∈ appsOfStage df s := by
      rw [appsOfStage, List.mem_dedup, List.mem_map]
      refine ⟨r, List.mem_filter.mpr ⟨hrdf, ?_⟩, rfl⟩
      simp [hst]
    exact List.length_pos.mpr (List.ne_nil_of_mem happ)
  refine ⟨hpos, ?_⟩
  have hne : (apps_per_stage df s : Rat) ≠ 0 := by
    exact_mod_cast Nat.pos_iff_ne_zero.mp hpos
  rw [normalizedCount]
  exact div_mul_cancel₀ _ hne

/-- Ten drift records in one stage spread over five distinct applications. -/
def driftTen : List DriftRec :=
  [⟨"with_ir", "a1", "Noise"⟩, ⟨"with_ir", "a1", "Noise"⟩,
   ⟨"with_ir", "a2", "Noise"⟩, ⟨"with_ir", "a2", "Noise"⟩,
   ⟨"with_ir", "a3", "Noise"⟩, ⟨"with_ir", "a3", "Noise"⟩,
   ⟨"with_ir", "a4", "Noise"⟩, ⟨"with_ir", "a4", "Noise"⟩,
   ⟨"with_ir", "a5", "Noise"⟩, ⟨"with_ir", "a5", "Noise"⟩]

theorem drift_normalization_per_app_witness :
    ("with_ir" ∈ stagesOf driftTen) ∧
    (0 < apps_per_stage driftTen "with_ir" ∧
      normalizedCount driftTen "with_ir" "Noise"
        * (apps_per_stage driftTen "with_ir" : Rat)
        = (catCount driftTen "with_ir" "Noise" : Rat)) ∧
    normalizedCount driftTen "with_ir" "Noise" = 2 := by
  have h := drift_normalization_per_app driftTen "with_ir" "Noise" (by decide)
  refine ⟨by decide, h, ?_⟩
  have h2 := h.2
  have happs : apps_per_stage driftTen "with_ir" = 5 := by decide
  have hcount : catCount driftTen "with_ir" "Noise" = 10 := by decide
  rw [happs, hcount] at h2
  push_cast at h2
  linarith

/-! ### Drift-path paired Wilcoxon test (`drift_quality_analysis.py`,
lines 127-154).  `error_counts = df[df.category=="Error"].groupby(
["stage","app"]).size().unstack(fill_value=0)` builds a stage × app
matrix whose columns are ALL applications appearing in the Error subset,
with missing (stage, app) cells imputed as 0.  The code then takes
`common_apps = list(set(error_counts.columns) & set(error_counts.columns))`
— the column set intersected with itself — and runs the Wilcoxon test over
all those columns whenever both stages appear, with no minimum-pairs
guard.  Set iteration order is not semantic; list order here follows the
deduplicated record order. -/

/-- The records classified "Error" (`df[df["category"] == "Error"]`). -/
def errorSubset (df : List DriftRec) : List DriftRec :=
  df.filter (fun r => r.category == "Error")

/-- The columns of the unstacked error-count matrix: every application with
an Error record in any stage. -/
def errorCols (df : List DriftRec) : List String :=
  ((errorSubset df).map (fun r => r.app)).dedup

/-- Line 133: `set(error_counts.columns) & set(error_counts.columns)` — the
column set intersected with itself, i.e. all columns, not the apps common
to the two stages. -/
def common_apps (df : List DriftRec) : List String :=
  (errorCols df).inter (errorCols df)

/-- One cell of the unstacked matrix: the number of Error records of app `a`
in stage `s`, 0 when absent (`fill_value=0`). -/
def errCount (df : List DriftRec) (s a : String) : Nat :=
  (df.filter (fun r => r.stage == s && r.app == a && r.category == "Error")).length

/-- Outcome of the drift-path Error-count comparison: either the guard on
the two stage labels fails (`notRun`), or the Wilcoxon test is attempted
over the per-app (baseline, final) count pairs — there is no
insufficient-data branch. -/
inductive DriftTestOutcome where
  | notRun
  | attempted (pairs : List (String × Nat × Nat))
  deriving DecidableEq

/-- Lines 131-140: when both "without_ir" and "with_overrides" appear among
the stages, the test is attempted over `common_apps` with baseline and
final error counts read from the zero-filled matrix. -/
def driftErrorTest (df : List DriftRec) : DriftTestOutcome :=
  if "without_ir" ∈ stagesOf df ∧ "with_overrides" ∈ stagesOf df then
    .attempted ((common_apps df).map
      (fun a => (a, errCount df "without_ir" a, errCount df "with_overrides" a)))
  else .notRun

/-- Human-effort records for stages with application sets {a,b,c} and
{b,c,d}: the matched applications are exactly {b,c}. -/
def effortPairExample : List EffortRec :=
  [⟨"with_ir", "a", 10⟩, ⟨"with_ir", "b", 20⟩, ⟨"with_ir", "c", 30⟩,
   ⟨"with_ir_corrected", "b", 7⟩, ⟨"with_ir_corrected", "c", 9⟩,
   ⟨"with_ir_corrected", "d", 11⟩]

/-- Drift records for stages with application sets {a,b,c} and {b,c,d}:
one Error record per (stage, app). -/
def driftPairExample : List DriftRec :=
  [⟨"without_ir", "a", "Error"⟩, ⟨"without_ir", "b", "Error"⟩,
   ⟨"without_ir", "c", "Error"⟩, ⟨"with_overrides", "b", "Error"⟩,
   ⟨"with_overrides", "c", "Error"⟩, ⟨"with_overrides", "d", "Error"⟩]

/-- C1: on application sets {a,b,c} vs {b,c,d} the human-effort comparator
pairs exactly {b,c} and reports insufficient data (`none`), as the claim
states — but the drift-path Wilcoxon comparison operates on all four
applications, imputing 0 for the stage an application is missing from
(app "a" gets final count 0, app "d" gets baseline count 0), and attempts
the test with no insufficient-data outcome. -/
theorem paired_stage_comparison_divergence :
    pairedApps effortPairExample "with_ir" "with_ir_corrected" = ["b", "c"] ∧
    humanEffortOutcome effortPairExample "with_ir" "with_ir_corrected" = none ∧
    (common_apps driftPairExample).length = 4 ∧
    "a" ∈ common_apps driftPairExample ∧
    "d" ∈ common_apps driftPairExample ∧
    driftErrorTest driftPairExample =
      .attempted [("a", 1, 0), ("b", 1, 1), ("c", 1, 1), ("d", 0, 1)] := by
  decide

/-! ### Record extraction (`utils.py`, `flatten_results` lines 49-107).
Python values from the parsed JSON become `JVal`; the flattener walks
{stage: {app: metrics-bag}} and builds one row per (stage, app).
Fallible steps return `Except String`: Python raises a TypeError from
`candidate in metrics` for a non-iterable metrics bag and an
AttributeError from `metrics.get` for other non-dict bags — the model
collapses these aborts into one error value. -/

/-- A parsed JSON / Python value as handled by `flatten_results`. -/
inductive JVal where
  | null
  | bool (b : Bool)
  | num (n : Int)
  | str (s : String)
  | arr (xs : List JVal)
  | dict (entries : List (String × JVal))

/-- Python truthiness of a value (`bool(v)`). -/
def JVal.truthy : JVal → Bool
  | .null => false
  | .bool b => b
  | .num n => n != 0
  | .str s => s != ""
  | .arr xs => !xs.isEmpty
  | .dict m => !m.isEmpty

/-- Python `d.get(k, default)` on a dict's entry list. -/
def dictGet (m : List (String × JVal)) (k : String) (d : JVal) : JVal :=
  ((m.find? (fun p => p.1 == k)).map (fun p => p.2)).getD d

/-- One lookup step of `safe_get`: `None` unless the value is a dict holding
the key (the `isinstance(cur, dict) and k in cur` check). -/
def JVal.getKey : JVal → String → Option JVal
  | .dict m, k => (m.find? (fun p => p.1 == k)).map (fun p => p.2)
  | _, _ => none

/-- `safe_get` from `utils.py` lines 10-17: traverse nested dicts by a key
path, `none` on any miss. -/
def safe_get (v : JVal) : List String → Option JVal
  | [] => some v
  | k :: rest =>
    match v.getKey k with
    | some w => safe_get w rest
    | none => none

/-- `bool(safe_get(bag, key, default=False))`. -/
def boolField (bag : JVal) (key : String) : Bool :=
  ((safe_get bag [key]).getD (.bool false)).truthy

/-- Python `int(v)` on a scalar: ints pass through, bools become 0/1,
numeric strings parse, anything else raises. -/
def pyInt : JVal → Except String Int
  | .num n => .ok n
  | .bool b => .ok (if b then 1 else 0)
  | .str s =>
    match s.toInt? with
    | some n => .ok n
    | none => .error "ValueError"
  | _ => .error "TypeError"

/-- Python `v or 0`. -/
def pyOrZero (v : JVal) : JVal := if v.truthy then v else .num 0

/-- Python `v or {}`. -/
def pyOrEmptyDict (v : JVal) : JVal := if v.truthy then v else .dict []

/-- `int(safe_get(metrics, *path, default=0) or 0)` (lines 98-103). -/
def intField (m : JVal) (path : List String) : Except String Int :=
  pyInt (pyOrZero ((safe_get m path).getD (.num 0)))

/-- The human-effort key candidates tried in fixed priority order (line 65). -/
def heCandidates : List String :=
  ["human_effort_ir", "human_effort_overrides", "human_effort", "human-effort"]

/-- Lines 65-69: the first candidate key present in the metrics bag,
together with its value. -/
def findCandidate (m : List (String × JVal)) : Option (String × JVal) :=
  heCandidates.findSome? (fun c => (m.find? (fun p => p.1 == c)).map (fun p => (c, p.2)))

/-- `total_lines` (lines 75-81): `he.get(key, {})`, then `.get("total", 0)`
for dict values, `int(val)` for numbers (and bools, Python int subtypes),
0 otherwise; raises AttributeError when `he` itself is not a dict. -/
def total_lines (he : JVal) (key : String) : Except String JVal :=
  match he with
  | .dict entries =>
    match dictGet entries key (.dict []) with
    | .dict ventries => .ok (dictGet ventries "total" (.num 0))
    | .num n => .ok (.num n)
    | .bool b => .ok (.num (if b then 1 else 0))
    | _ => .ok (.num 0)
  | _ => .error "AttributeError"

/-- Line 97, the condition `he and ("total_operations" in he)`: falsy `he`
short-circuits to false; `in` is key lookup for dicts, substring search for
strings, element equality for lists, and a TypeError otherwise. -/
def heHasTotalOps (he : JVal) : Except String Bool :=
  if he.truthy = false then .ok false
  else match he with
    | .dict entries => .ok ((entries.find? (fun p => p.1 == "total_operations")).isSome)
    | .str s => .ok (strContains s "total_operations")
    | .arr xs => .ok (xs.any (fun v =>
        match v with
        | .str s => s == "total_operations"
        | _ => false))
    | _ => .error "TypeError"

/-- One flattened per-application row (lines 84-105).  The effort fields
hold whatever value `total_lines` returned (Python stores it unchanged). -/
structure Row where
  stage : String
  app : String
  manifests_renderable : Bool
  deployment_successful : Bool
  pods_ready : Bool
  services_accessible : Bool
  llm_aligned_to_intent : Bool
  expected_entrypoint : Bool
  expected_behaviour : Bool
  added_lines : JVal
  removed_lines : JVal
  modified_lines : JVal
  total_operations : JVal
  kubescape_critical : Int
  kubescape_high : Int
  kubescape_medium : Int
  kubescape_low : Int
  kubescape_total_controls : Int
  cluster_lines : Int
  he_source : Option String

/-- The body of the per-app loop for a dict metrics bag, in the source's
evaluation order. -/
def buildRow (stage app : String) (m : List (String × JVal)) : Except String Row := do
  let cand := findCandidate m
  let he := match cand with
    | some p => pyOrEmptyDict p.2
    | none => JVal.dict []
  let sk := pyOrEmptyDict (dictGet m "skaffold" (.dict []))
  let llm := pyOrEmptyDict (dictGet m "llm_report" (.dict []))
  let manual := pyOrEmptyDict (dictGet m "manual_review" (.dict []))
  let added ← total_lines he "added_lines"
  let removed ← total_lines he "removed_lines"
  let modified ← total_lines he "modified_lines"
  let hasTO ← heHasTotalOps he
  let totalOps ← if hasTO then total_lines he "total_operations" else pure (JVal.num 0)
  let kc ← intField (.dict m) ["kubescape", "critical"]
  let kh ← intField (.dict m) ["kubescape", "high"]
  let km ← intField (.dict m) ["kubescape", "medium"]
  let kl ← intField (.dict m) ["kubescape", "low"]
  let ktc ← intField (.dict m) ["kubescape", "total_controls"]
  let cl ← intField (.dict m) ["cluster_lines"]
  pure ⟨stage, app,
    boolField sk "manifests_renderable", boolField sk "deployment_successful",
    boolField sk "pods_ready", boolField sk "services_accessible",
    boolField llm "aligned_to_intent",
    boolField manual "expected_entrypoint", boolField manual "expected_behaviour",
    added, removed, modified, totalOps,
    kc, kh, km, kl, ktc, cl, cand.map (fun p => p.1)⟩

/-- Processing of one (app, metrics) pair: a non-dict metrics bag makes the
Python loop raise (TypeError or AttributeError depending on the type)
instead of producing a defaulted row. -/
def flattenApp (stage app : String) (metrics : JVal) : Except String Row :=
  match metrics with
  | .dict m => buildRow stage app m
  | _ => .error "TypeError: metrics bag is not a mapping"

/-- The inner `for app, metrics in apps.items()` loop; an exception on any
app aborts the whole loop. -/
def flattenApps (stage : String) : List (String × JVal) → Except String (List Row)
  | [] => .ok []
  | (app, metrics) :: rest => do
    let r ← flattenApp stage app metrics
    let rs ← flattenApps stage rest
    pure (r :: rs)

/-- `flatten_results` (lines 49-107): the outer stage loop; an exception
escaping any app aborts the whole extraction with no DataFrame produced. -/
def flatten_results : List (String × List (String × JVal)) → Except String (List Row)
  | [] => .ok []
  | (stage, apps) :: rest => do
    let rs ← flattenApps stage apps
    let more ← flatten_results rest
    pure (rs ++ more)

/-- Number of extracted rows; an aborted extraction yields none. -/
def rowCount : Except String (List Row) → Nat
  | .ok rows => rows.length
  | .error _ => 0

/-- Two well-formed applications in one stage. -/
def goodResults : List (String × List (String × JVal)) :=
  [("with_ir",
    [("appA", .dict [("skaffold", .dict [("pods_ready", .bool true)])]),
     ("appB", .dict [("cluster_lines", .num 3)])])]

/-- The same input with appB's metrics bag malformed (the number 7 instead
of a mapping). -/
def badResults : List (String × List (String × JVal)) :=
  [("with_ir",
    [("appA", .dict [("skaffold", .dict [("pods_ready", .bool true)])]),
     ("appB", .num 7)])]

/-- C6: with both bags well-formed the extractor produces both rows, but
making one application's metrics bag a non-mapping aborts the whole
extraction with an error — appA's record is lost too, instead of the
malformed bag being treated as all-defaults. -/
theorem flatten_malformed_bag_aborts :
    rowCount (flatten_results goodResults) = 2 ∧
    flatten_results badResults = .error "TypeError: metrics bag is not a mapping" := by
  constructor
  · rfl
  · rfl

/-! ### Agreement evaluator (`llm_alignment_analysis.py`,
`analyze_llm_human_alignment` lines 83-119).  Per stage, the two binary
judgment columns are the human runtime observation (`y_true`) and the LLM
static judgment (`y_pred`).  The external sklearn metric functions are
modelled as arbitrary fallible oracles (`Except String Rat`), quantified
over all behaviours — raising included — so the theorem depends only on
the in-repository guard structure: `kappa` and `mcc` each sit in their own
try/except producing NaN, `f1`/`precision`/`recall` share one try/except,
and every division is guarded by `if total > 0 else 0`. -/

/-- A metric cell in the per-stage summary: a number or NaN. -/
inductive MetricVal where
  | num (q : Rat)
  | nan
  deriving DecidableEq

/-- `try: x = f(...) except: x = np.nan`. -/
def tryMetric (r : Except String Rat) : MetricVal :=
  match r with
  | .ok q => .num q
  | .error _ => .nan

/-- The shared try/except around `f1_score`, `precision_score`,
`recall_score` (lines 104-109): an exception in any of the three, in
order, leaves all three as NaN. -/
def tryMetric3 (a b c : Except String Rat) : MetricVal × MetricVal × MetricVal :=
  match a with
  | .error _ => (.nan, .nan, .nan)
  | .ok x =>
    match b with
    | .error _ => (.nan, .nan, .nan)
    | .ok y =>
      match c with
      | .error _ => (.nan, .nan, .nan)
      | .ok z => (.num x, .num y, .num z)

/-- Python division, raising ZeroDivisionError on a zero denominator. -/
def pyDiv (a b : Rat) : Except String Rat :=
  if b = 0 then .error "ZeroDivisionError" else .ok (a / b)

/-- `(y_true == y_pred).sum()`. -/
def countAgree (t p : List Bool) : Nat :=
  (t.zip p).countP (fun x => x.1 == x.2)

/-- `sum()` of a boolean column. -/
def countTrueCol (xs : List Bool) : Nat := xs.countP (fun b => b)

/-- The per-stage summary row assembled by lines 88-119. -/
structure StageMetrics where
  n : Nat
  agreement_pct : Rat
  kappa : MetricVal
  mcc : MetricVal
  f1 : MetricVal
  prec : MetricVal
  recl : MetricVal
  llm_pos_rate : Rat
  human_pos_rate : Rat
  deriving DecidableEq

/-- One stage of `analyze_llm_human_alignment` (lines 83-119), with the
sklearn calls abstracted as the five oracle arguments.  Every rate is
computed as `(x / total * 100) if total > 0 else 0`, so the only
unguarded failure points would be the divisions. -/
def stageAlignment (kappaR mccR f1R precR recR : Except String Rat)
    (y_true y_pred : List Bool) : Except String StageMetrics := do
  let total := y_true.length
  let agreement := countAgree y_true y_pred
  let agreement_pct ← if 0 < total then do
      let q ← pyDiv (agreement : Rat) (total : Rat)
      pure (q * 100)
    else pure 0
  let kappa := tryMetric kappaR
  let mcc := tryMetric mccR
  let (f1, prec, recl) := tryMetric3 f1R precR recR
  let llm_pos_rate ← if 0 < total then do
      let q ← pyDiv (countTrueCol y_pred : Rat) (total : Rat)
      pure (q * 100)
    else pure 0
  let human_pos_rate ← if 0 < total then do
      let q ← pyDiv (countTrueCol y_true : Rat) (total : Rat)
      pure (q * 100)
    else pure 0
  pure ⟨total, agreement_pct, kappa, mcc, f1, prec, recl, llm_pos_rate, human_pos_rate⟩

/-- A judgment column with zero variance: all-positive or all-negative. -/
def zeroVariance (xs : List Bool) : Prop :=
  (∀ x ∈ xs, x = true) ∨ (∀ x ∈ xs, x = false)

/-- C9: for a stage whose judgment columns include a zero-variance column,
the evaluator still returns a full metrics row — every metric is a number
or NaN — and never lets an exception escape, whatever the underlying
sklearn metric functions do (including raising). -/
theorem alignment_metrics_never_raise
    (kappaR mccR f1R precR recR : Except String Rat) (y_true y_pred : List Bool)
    (hvar : zeroVariance y_true ∨ zeroVariance y_pred) :
    ∃ m : StageMetrics,
      stageAlignment kappaR mccR f1R precR recR y_true y_pred = .ok m := by
  clear hvar
  unfold stageAlignment
  by_cases ht : 0 < y_true.length
  · have hne : ((y_true.length : Rat)) ≠ 0 := by
      exact_mod_cast Nat.pos_iff_ne_zero.mp ht
    simp [ht, pyDiv, hne]
    exact ⟨_, rfl⟩
  · simp [ht]
    exact ⟨_, rfl⟩

theorem alignment_metrics_never_raise_witness :
    (zeroVariance [true, true, true] ∨ zeroVariance [true, false, true]) ∧
    ∃ m : StageMetrics,
      stageAlignment (.error "degenerate") (.error "degenerate")
        (.error "degenerate") (.error "degenerate") (.error "degenerate")
        [true, true, true] [true, false, true] = .ok m :=
  ⟨Or.inl (Or.inl (by decide)),
    alignment_metrics_never_raise (.error "degenerate") (.error "degenerate")
      (.error "degenerate") (.error "degenerate") (.error "degenerate")
      [true, true, true] [true, false, true] (Or.inl (Or.inl (by decide)))⟩
